import Mathlib

/-!
# Tablet server orchestration (src/tserver/tablet_server.cc)

A shallow embedding of `kudu::tserver::TabletServer`: the server object is a record of its
member variables, every member function is a function from the state before the call to an
`Outcome` (a normal return with the state after the call, or a process abort with the state at
the abort).  Code that `tablet_server.cc` calls but that lives in other files of the repository
(address parsing, the messenger, the service pool) is taken as a parameter, collected in `Env`.
-/

namespace kudu

/-! ## Types declared outside tablet_server.cc

The headers that declare these types are not under src/; each type is modelled by what
`tablet_server.cc` does with its values. -/

/-- Value of `kudu::Status` (util/status.h): `OK`, or an error with a code and a message.
`RETURN_NOT_OK(e)` returns the status of `e` from the enclosing function when it is not
`ok()`. -/
inductive Status where
  | OK
  | Error (code : Nat) (msg : String)
  deriving DecidableEq

/-- Member `Status::ok()`. -/
def Status.ok : Status → Bool
  | Status.OK => true
  | Status.Error _ _ => false

/-- Value of `kudu::Sockaddr` (util/net/sockaddr.h): a host and a port. -/
structure Sockaddr where
  host : String
  port : Nat
  deriving DecidableEq

/-- Object of `kudu::tablet::Tablet`; only its identity matters to the server.  A
`shared_ptr<Tablet>` is an `Option Tablet`, `none` being the null pointer. -/
structure Tablet where
  tablet_id : String
  deriving DecidableEq

/-- Object of `rpc::Messenger` as seen from the tablet server: the name and reactor count its
builder was given, and the `AddAcceptorPool(bind_addr, num_threads)` calls it has received so
far, oldest first. -/
structure Messenger where
  name : String
  num_reactors : Nat
  acceptor_pool_calls : List (Sockaddr × Nat)
  deriving DecidableEq

/-- Object of `rpc::ServicePool` as seen from the tablet server: the messenger pointer its
constructor was given and, once `Init(num_threads)` has returned OK, that thread count. -/
structure ServicePool where
  messenger : Option Messenger
  num_threads : Option Nat
  deriving DecidableEq

/-- Value of `rpc::AcceptorPoolInfo`: carries `bind_address()`. -/
structure AcceptorPoolInfo where
  bind_address : Sockaddr
  deriving DecidableEq

/-- Result of `MessengerBuilder::Build(&ptr)` called on a null `ptr`: either it returns OK
having stored a new messenger in `ptr`, or it returns an error, and `assigned` tells whether
`ptr` was written all the same. -/
inductive BuildResult where
  | built
  | failed (code : Nat) (msg : String) (assigned : Bool)
  deriving DecidableEq

/-- Status returned by the `Build` call. -/
def BuildResult.status : BuildResult → Status
  | BuildResult.built => Status.OK
  | BuildResult.failed code msg _ => Status.Error code msg

/-- Whether the `Build` call stored a messenger in the pointer it was given. -/
def BuildResult.assigned : BuildResult → Bool
  | BuildResult.built => true
  | BuildResult.failed _ _ assigned => assigned

/-- The functions and constants `tablet_server.cc` uses from other files.  Each function is
given the object state it is called on and its arguments, so that its result may depend on
everything the call can observe.

* `ParseAddressList text default_port out` is the status returned by
  `ParseAddressList(text, default_port, &out)` together with the content of `out` afterwards;
* `Build name num_reactors` is the result of `MessengerBuilder::Build(&ptr)` on a null `ptr`,
  for a builder given that name and reactor count;
* `AddAcceptorPool m addr n` is the status of `m->AddAcceptorPool(addr, n)`;
* `ServicePoolInit pool n` is the status of `pool->Init(n)`;
* `GetAcceptorInfo m` is the list that `m->GetAcceptorInfo(&acceptors)` stores in an empty
  `acceptors`. -/
structure Env where
  kDefaultPort : Nat
  ParseAddressList : String → Nat → List Sockaddr → Status × List Sockaddr
  IsPrivilegedPort : Nat → Bool
  Build : String → Nat → BuildResult
  AddAcceptorPool : Messenger → Sockaddr → Nat → Status
  ServicePoolInit : ServicePool → Nat → Status
  GetAcceptorInfo : Messenger → List AcceptorPoolInfo

/-! ## TabletServerOptions and TabletServer -/

/-- Fields of `TabletServerOptions`, as initialized on lines 24-29. -/
structure TabletServerOptions where
  rpc_bind_addresses : String
  num_rpc_reactors : Nat
  num_acceptors_per_address : Nat
  num_service_threads : Nat
  deriving DecidableEq

/-- Constructor `TabletServerOptions::TabletServerOptions()` (lines 24-29). -/
def TabletServerOptions.ctor : TabletServerOptions :=
  { rpc_bind_addresses := "0.0.0.0:7150"
    num_rpc_reactors := 1
    num_acceptors_per_address := 1
    num_service_threads := 10 }

/-- Member variables of `TabletServer` (declared in tserver/tablet_server.h, read off their
uses in tablet_server.cc).  A smart pointer is an `Option`: `none` is null. -/
structure TabletServer where
  options_ : TabletServerOptions
  initted_ : Bool
  rpc_bind_addresses_ : List Sockaddr
  rpc_messenger_ : Option Messenger
  rpc_service_pool_ : Option ServicePool
  tablet_ : Option Tablet
  deriving DecidableEq

/-- Why a call did not return: the `CHECK` on the given line of tablet_server.cc failed, or a
member was accessed through a null pointer. -/
inductive Fault where
  | check_failed (line : Nat)
  | null_dereference
  deriving DecidableEq

/-- Result of a member function call: it returned `value` leaving the server in state `server`,
or the process stopped with the server in state `server`. -/
inductive Outcome (α : Type) where
  | returned (value : α) (server : TabletServer)
  | aborted (fault : Fault) (server : TabletServer)
  deriving DecidableEq

/-- Constructor `TabletServer::TabletServer(opts)` (lines 31-34): the options are copied,
`initted_` is false, every other member is default-constructed. -/
def TabletServer.ctor (opts : TabletServerOptions) : TabletServer :=
  { options_ := opts
    initted_ := false
    rpc_bind_addresses_ := []
    rpc_messenger_ := none
    rpc_service_pool_ := none
    tablet_ := none }

/-- Member `TabletServer::ToString()` (lines 42-45). -/
def TabletServer.ToString (_s : TabletServer) : String := "TabletServer"

/-- Member `TabletServer::Init()` (lines 47-60).  The value returned is the status together
with the addresses for which a WARNING line was logged, in order. -/
def TabletServer.Init (env : Env) (s : TabletServer) : Outcome (Status × List Sockaddr) :=
  if s.initted_ then Outcome.aborted (Fault.check_failed 48) s
  else
    let parsed :=
      env.ParseAddressList s.options_.rpc_bind_addresses env.kDefaultPort s.rpc_bind_addresses_
    let s1 := { s with rpc_bind_addresses_ := parsed.2 }
    if parsed.1.ok then
      Outcome.returned
        (Status.OK, s1.rpc_bind_addresses_.filter (fun addr => env.IsPrivilegedPort addr.port))
        { s1 with initted_ := true }
    else Outcome.returned (parsed.1, []) s1

/-- Result of the loop over the bind addresses in `StartRpcServer` (lines 78-81): it ran to
the end, or left with a status that is not OK; `messenger` is the messenger afterwards. -/
inductive AcceptorLoop where
  | done (messenger : Messenger)
  | failed (status : Status) (messenger : Messenger)
  deriving DecidableEq

/-- The loop of lines 78-81: one `rpc_messenger_->AddAcceptorPool(bind_addr, n)` per address,
leaving at the first status that is not OK. -/
def AddAcceptorPools (env : Env) (n : Nat) : Messenger → List Sockaddr → AcceptorLoop
  | m, [] => AcceptorLoop.done m
  | m, bind_addr :: rest =>
    let st := env.AddAcceptorPool m bind_addr n
    let m1 := { m with acceptor_pool_calls := m.acceptor_pool_calls ++ [(bind_addr, n)] }
    if st.ok then AddAcceptorPools env n m1 rest
    else AcceptorLoop.failed st m1

/-- Member `TabletServer::StartRpcServer()` (lines 68-91). -/
def TabletServer.StartRpcServer (env : Env) (s : TabletServer) : Outcome Status :=
  if !s.initted_ then Outcome.aborted (Fault.check_failed 69) s
  else if s.rpc_messenger_.isSome then Outcome.aborted (Fault.check_failed 70) s
  else
    let messenger : Messenger := ⟨s.ToString, s.options_.num_rpc_reactors, []⟩
    let result := env.Build s.ToString s.options_.num_rpc_reactors
    if !result.status.ok then
      Outcome.returned result.status
        { s with rpc_messenger_ := if result.assigned then some messenger else none }
    else
      match AddAcceptorPools env s.options_.num_acceptors_per_address messenger
          s.rpc_bind_addresses_ with
      | AcceptorLoop.failed st m => Outcome.returned st { s with rpc_messenger_ := some m }
      | AcceptorLoop.done m =>
        let pool : ServicePool := { messenger := some m, num_threads := none }
        let st := env.ServicePoolInit pool s.options_.num_service_threads
        if !st.ok then Outcome.returned st { s with rpc_messenger_ := some m }
        else
          Outcome.returned Status.OK
            { s with
              rpc_messenger_ := some m
              rpc_service_pool_ :=
                some { pool with num_threads := some s.options_.num_service_threads } }

/-- Member `TabletServer::Start()` (lines 62-66). -/
def TabletServer.Start (env : Env) (s : TabletServer) : Outcome Status :=
  if !s.initted_ then Outcome.aborted (Fault.check_failed 63) s
  else
    match s.StartRpcServer env with
    | Outcome.aborted f s1 => Outcome.aborted f s1
    | Outcome.returned st s1 =>
      if !st.ok then Outcome.returned st s1 else Outcome.returned Status.OK s1

/-- Member `TabletServer::GetBoundAddresses(addresses)` (lines 93-102).  The value returned is
the content of `*addresses` after the call. -/
def TabletServer.GetBoundAddresses (env : Env) (s : TabletServer)
    (addresses : List Sockaddr) : Outcome (List Sockaddr) :=
  if !s.initted_ then Outcome.aborted (Fault.check_failed 96) s
  else
    match s.rpc_messenger_ with
    | none => Outcome.aborted Fault.null_dereference s
    | some m =>
      let acceptors := env.GetAcceptorInfo m
      Outcome.returned (addresses ++ acceptors.map (fun info => info.bind_address)) s

/-- Member `TabletServer::RegisterTablet(tablet)` (lines 104-109). -/
def TabletServer.RegisterTablet (s : TabletServer) (tablet : Option Tablet) : Outcome Unit :=
  if s.tablet_.isSome then Outcome.aborted (Fault.check_failed 105) s
  else Outcome.returned () { s with tablet_ := tablet }

/-- Member `TabletServer::LookupTablet(tablet_id, tablet)` (lines 111-119).  The value returned
is the boolean result together with the content of `*tablet` after the call. -/
def TabletServer.LookupTablet (s : TabletServer) (_tablet_id : String) :
    Outcome (Bool × Option Tablet) :=
  Outcome.returned (true, s.tablet_) s

/-! ## Call histories -/

/-- One call of a public member function of a `TabletServer`, with its arguments. -/
inductive Call where
  | Init
  | Start
  | GetBoundAddresses (addresses : List Sockaddr)
  | RegisterTablet (tablet : Option Tablet)
  | LookupTablet (tablet_id : String)
  deriving DecidableEq

/-- State of the server after a call that returned; `none` when the process stopped. -/
def Outcome.server? {α : Type} : Outcome α → Option TabletServer
  | Outcome.returned _ s => some s
  | Outcome.aborted _ _ => none

/-- Status of a call that returned one. -/
def Outcome.status? {α : Type} (f : α → Status) : Outcome α → Option Status
  | Outcome.returned v _ => some (f v)
  | Outcome.aborted _ _ => none

/-- State of the server after `call` made in environment `env`, when the call returns. -/
def Call.exec (env : Env) (s : TabletServer) : Call → Option TabletServer
  | Call.Init => (s.Init env).server?
  | Call.Start => (s.Start env).server?
  | Call.GetBoundAddresses addresses => (s.GetBoundAddresses env addresses).server?
  | Call.RegisterTablet tablet => (s.RegisterTablet tablet).server?
  | Call.LookupTablet tablet_id => (s.LookupTablet tablet_id).server?

/-- State of the server after a sequence of calls, each made in its own environment, when all
of them return. -/
def run : TabletServer → List (Env × Call) → Option TabletServer
  | s, [] => some s
  | s, (env, call) :: rest =>
    match call.exec env s with
    | none => none
    | some s1 => run s1 rest

/-- Whether `call`, made on `s` in `env`, is an `Init` that returns OK. -/
def Call.isSuccessfulInit (env : Env) (s : TabletServer) : Call → Bool
  | Call.Init => (s.Init env).status? (fun v => v.1) == some Status.OK
  | _ => false

/-- Whether no call of the sequence, made from state `s` on, is an `Init` that returns OK. -/
def noSuccessfulInit : TabletServer → List (Env × Call) → Bool
  | _, [] => true
  | s, (env, call) :: rest =>
    !call.isSuccessfulInit env s &&
      match call.exec env s with
      | none => true
      | some s1 => noSuccessfulInit s1 rest

/-- Whether the call registers a tablet, that is, passes a non-null pointer to
`RegisterTablet`. -/
def Call.registersTablet : Call → Bool
  | Call.RegisterTablet (some _) => true
  | _ => false

/-- Whether the call is a `RegisterTablet`, whatever its argument. -/
def Call.isRegisterTablet : Call → Bool
  | Call.RegisterTablet _ => true
  | _ => false

/-- State kept by a server on which no `Init` has returned OK: not initialized, no messenger,
no service pool. -/
def TabletServer.notStarted (s : TabletServer) : Prop :=
  s.initted_ = false ∧ s.rpc_messenger_ = none ∧ s.rpc_service_pool_ = none

/-! ## Address parsing

`ParseAddressList` lives in util/net/net_util, which is not under src/.  The member functions
above take it as a parameter; the definitions below model it from the spec. -/

/-- Splits a text at every occurrence of `sep`. -/
def splitOnChar (sep : Char) : List Char → List (List Char)
  | [] => [[]]
  | c :: cs =>
    if c = sep then [] :: splitOnChar sep cs
    else
      match splitOnChar sep cs with
      | [] => [[c]]
      | w :: ws => (c :: w) :: ws

/-- Reads a non-empty sequence of decimal digits. -/
def readPort (cs : List Char) : Option Nat :=
  if cs = [] ∨ ¬ cs.all Char.isDigit then none
  else some (cs.foldl (fun n c => 10 * n + (c.toNat - 48)) 0)

/-- Modelled from the spec: one entry of the bind address list, "`host:port` entries with a
default port applied when omitted".  An empty host, an unreadable port or a second colon make
the entry malformed (`none`). -/
def readEntry (default_port : Nat) (entry : List Char) : Option Sockaddr :=
  match splitOnChar ':' entry with
  | [host] => if host = [] then none else some ⟨String.mk host, default_port⟩
  | [host, port] =>
    if host = [] then none
    else (readPort port).map (fun p => ⟨String.mk host, p⟩)
  | _ => none

/-- Modelled from the spec: the entries are read in list order; "malformed entries fail", the
first one with an error naming it; otherwise the addresses read are the result. -/
def readEntries (default_port : Nat) : List (List Char) → Except Status (List Sockaddr)
  | [] => Except.ok []
  | entry :: rest =>
    match readEntry default_port entry with
    | none => Except.error (Status.Error 4 (String.mk entry))
    | some addr =>
      match readEntries default_port rest with
      | Except.error st => Except.error st
      | Except.ok addrs => Except.ok (addr :: addrs)

/-- Modelled from the spec: `ParseAddressList(text, default_port, &out)` (util/net/net_util,
not under src/) reads "a textual list of `host:port` entries with a default port applied when
omitted; malformed entries fail server initialization".  On success the addresses read are
added to `out`; a failing parse leaves `out` as it was, since `Init` "fails (without mutating
further state) if any address fails to parse".  The value is the status together with the
content of `out` afterwards. -/
def ParseAddressList (text : String) (default_port : Nat) (out : List Sockaddr) :
    Status × List Sockaddr :=
  match readEntries default_port (splitOnChar ',' text.data) with
  | Except.error st => (st, out)
  | Except.ok addrs => (Status.OK, out ++ addrs)

/-! ## A concrete environment

Used to evaluate the member functions on concrete inputs. -/

/-- An environment in which ports below 1024 are privileged, the messenger always builds, an
address can be bound once per messenger, the service pool always starts, and the messenger
reports each bound address once. -/
def sampleEnv : Env :=
  { kDefaultPort := 7150
    ParseAddressList := ParseAddressList
    IsPrivilegedPort := fun port => decide (port < 1024)
    Build := fun _ _ => BuildResult.built
    AddAcceptorPool := fun m addr _ =>
      if m.acceptor_pool_calls.any (fun p => p.1 == addr) then Status.Error 8 "address in use"
      else Status.OK
    ServicePoolInit := fun _ _ => Status.OK
    GetAcceptorInfo := fun m => (m.acceptor_pool_calls.map (fun p => p.1)).dedup.map (fun a => ⟨a⟩) }

/-- The address `0.0.0.0:7150` of the default options. -/
def defaultAddress : Sockaddr := ⟨"0.0.0.0", 7150⟩

/-- A server built from the default options on which `Init` has returned OK. -/
def initializedServer : TabletServer :=
  { TabletServer.ctor TabletServerOptions.ctor with
    initted_ := true
    rpc_bind_addresses_ := [defaultAddress] }

/-- The server `initializedServer` after a `Start` that returned OK. -/
def startedServer : TabletServer :=
  { initializedServer with
    rpc_messenger_ := some ⟨"TabletServer", 1, [(defaultAddress, 1)]⟩
    rpc_service_pool_ :=
      some ⟨some ⟨"TabletServer", 1, [(defaultAddress, 1)]⟩, some 10⟩ }

/-- A tablet. -/
def tabletOne : Tablet := ⟨"tablet-1"⟩

/-- A new default server on which `tabletOne` has been registered. -/
def registeredServer : TabletServer :=
  { TabletServer.ctor TabletServerOptions.ctor with tablet_ := some tabletOne }

/-- The server `registeredServer` after `Init` and `Start` have returned OK. -/
def servingServer : TabletServer :=
  { startedServer with tablet_ := some tabletOne }

/-- Options that list a privileged port. -/
def privilegedOptions : TabletServerOptions :=
  { TabletServerOptions.ctor with rpc_bind_addresses := "0.0.0.0:80,0.0.0.0:7150" }

/-- Options whose second entry has an unreadable port. -/
def malformedOptions : TabletServerOptions :=
  { TabletServerOptions.ctor with rpc_bind_addresses := "0.0.0.0:7150,0.0.0.0:rpc" }

/-- Options that list the same address twice. -/
def duplicateOptions : TabletServerOptions :=
  { TabletServerOptions.ctor with rpc_bind_addresses := "0.0.0.0:7150,0.0.0.0:7150" }

/-- A server built from `duplicateOptions` on which `Init` has returned OK. -/
def duplicateServer : TabletServer :=
  { TabletServer.ctor duplicateOptions with
    initted_ := true
    rpc_bind_addresses_ := [defaultAddress, defaultAddress] }

/-- The server `duplicateServer` after a `Start` whose second `AddAcceptorPool` call
failed. -/
def halfStartedServer : TabletServer :=
  { duplicateServer with
    rpc_messenger_ := some ⟨"TabletServer", 1, [(defaultAddress, 1), (defaultAddress, 1)]⟩ }

/-- The environment `sampleEnv` with a service pool that cannot start its threads. -/
def noThreadsEnv : Env :=
  { sampleEnv with ServicePoolInit := fun _ _ => Status.Error 9 "cannot start thread" }

/-! ## Supporting lemmas -/

/-- A returning `StartRpcServer` writes only `rpc_messenger_` and `rpc_service_pool_`. -/
theorem StartRpcServer_frame (env : Env) (s s1 : TabletServer) (st : Status)
    (h : s.StartRpcServer env = Outcome.returned st s1) :
    s1.options_ = s.options_ ∧ s1.initted_ = s.initted_ ∧
      s1.rpc_bind_addresses_ = s.rpc_bind_addresses_ ∧ s1.tablet_ = s.tablet_ := by
  unfold TabletServer.StartRpcServer at h
  split at h
  · cases h
  split at h
  · cases h
  simp only at h
  split at h
  · cases h; simp
  split at h
  · cases h; simp
  · split at h <;> cases h <;> simp

/-- A returning `Start` writes only `rpc_messenger_` and `rpc_service_pool_`. -/
theorem Start_frame (env : Env) (s s1 : TabletServer) (st : Status)
    (h : s.Start env = Outcome.returned st s1) :
    s1.options_ = s.options_ ∧ s1.initted_ = s.initted_ ∧
      s1.rpc_bind_addresses_ = s.rpc_bind_addresses_ ∧ s1.tablet_ = s.tablet_ := by
  unfold TabletServer.Start at h
  split at h
  · cases h
  split at h
  · cases h
  · rename_i st0 s0 heq
    split at h <;> cases h <;> exact StartRpcServer_frame env s _ _ heq

/-- Only `RegisterTablet` writes `tablet_`. -/
theorem Call.exec_tablet (env : Env) (s s1 : TabletServer) (call : Call)
    (hcall : call.isRegisterTablet = false) (h : call.exec env s = some s1) :
    s1.tablet_ = s.tablet_ := by
  cases call with
  | Init =>
    simp only [Call.exec, TabletServer.Init] at h
    split at h
    · cases h
    · split at h <;> cases h <;> rfl
  | Start =>
    simp only [Call.exec] at h
    cases hs : s.Start env with
    | aborted f s0 => rw [hs] at h; cases h
    | returned st s0 =>
      rw [hs] at h; cases h
      exact (Start_frame env s _ _ hs).2.2.2
  | GetBoundAddresses addresses =>
    simp only [Call.exec, TabletServer.GetBoundAddresses] at h
    split at h
    · cases h
    · split at h <;> cases h
      rfl
  | RegisterTablet tablet => cases hcall
  | LookupTablet tablet_id => cases h; rfl

/-- A run without `RegisterTablet` calls leaves `tablet_` as it was. -/
theorem run_tablet (calls : List (Env × Call)) :
    ∀ (s s1 : TabletServer), (∀ c ∈ calls, c.2.isRegisterTablet = false) →
      run s calls = some s1 → s1.tablet_ = s.tablet_ := by
  induction calls with
  | nil => intro s s1 _ h; cases h; rfl
  | cons c rest ih =>
    intro s s1 hno h
    obtain ⟨env, call⟩ := c
    simp only [run] at h
    cases hc : call.exec env s with
    | none => rw [hc] at h; cases h
    | some s0 =>
      rw [hc] at h
      have h1 := ih s0 s1 (fun c hmem => hno c (List.mem_cons_of_mem _ hmem)) h
      have h2 := Call.exec_tablet env s s0 call (hno (env, call) (List.mem_cons_self _ _)) hc
      rw [h1, h2]

/-- A run in which no call registers a tablet leaves an empty `tablet_` empty. -/
theorem run_no_tablet (calls : List (Env × Call)) :
    ∀ (s s1 : TabletServer), s.tablet_ = none → (∀ c ∈ calls, c.2.registersTablet = false) →
      run s calls = some s1 → s1.tablet_ = none := by
  induction calls with
  | nil => intro s s1 h0 _ h; cases h; exact h0
  | cons c rest ih =>
    intro s s1 h0 hno h
    obtain ⟨env, call⟩ := c
    simp only [run] at h
    cases hc : call.exec env s with
    | none => rw [hc] at h; cases h
    | some s0 =>
      rw [hc] at h
      refine ih s0 s1 ?_ (fun c hmem => hno c (List.mem_cons_of_mem _ hmem)) h
      have hreg := hno (env, call) (List.mem_cons_self _ _)
      cases hk : call.isRegisterTablet with
      | false => rw [Call.exec_tablet env s s0 call hk hc]; exact h0
      | true =>
        cases call with
        | RegisterTablet tablet =>
          cases tablet with
          | some t => cases hreg
          | none =>
            simp only [Call.exec, TabletServer.RegisterTablet] at hc
            split at hc <;> cases hc
            rfl
        | _ => cases hk

/-- A run in which no `Init` returns OK keeps the server uninitialized and without messenger
or service pool. -/
theorem run_noSuccessfulInit (calls : List (Env × Call)) :
    ∀ (s s1 : TabletServer), s.notStarted → noSuccessfulInit s calls = true →
      run s calls = some s1 → s1.notStarted := by
  induction calls with
  | nil => intro s s1 h0 _ h; cases h; exact h0
  | cons c rest ih =>
    intro s s1 h0 hno h
    obtain ⟨env, call⟩ := c
    obtain ⟨hi, hm, hp⟩ := h0
    simp only [run] at h
    simp only [noSuccessfulInit, Bool.and_eq_true, Bool.not_eq_true'] at hno
    cases hc : call.exec env s with
    | none => rw [hc] at h; cases h
    | some s0 =>
      rw [hc] at h
      have hno2 := hno.2
      rw [hc] at hno2
      refine ih s0 s1 ?_ hno2 h
      have hno1 := hno.1
      cases call with
      | Init =>
        by_cases hok : (env.ParseAddressList s.options_.rpc_bind_addresses env.kDefaultPort
            s.rpc_bind_addresses_).1.ok = true
        · simp [Call.isSuccessfulInit, TabletServer.Init, hi, hok, Outcome.status?] at hno1
        · simp only [Call.exec, TabletServer.Init, hi, hok, Bool.false_eq_true, if_false,
            Outcome.server?, Option.some.injEq] at hc
          subst hc
          exact ⟨rfl, hm, hp⟩
      | Start => simp [Call.exec, TabletServer.Start, hi, Outcome.server?] at hc
      | GetBoundAddresses addresses =>
        simp [Call.exec, TabletServer.GetBoundAddresses, hi, Outcome.server?] at hc
      | RegisterTablet tablet =>
        simp only [Call.exec, TabletServer.RegisterTablet] at hc
        split at hc <;> cases hc
        exact ⟨hi, hm, hp⟩
      | LookupTablet tablet_id => cases hc; exact ⟨hi, hm, hp⟩

/-- A server with a messenger is initialized, and both facts survive every returning call. -/
theorem run_started (calls : List (Env × Call)) :
    ∀ (s s1 : TabletServer), s.initted_ = true → s.rpc_messenger_.isSome = true →
      run s calls = some s1 → s1.initted_ = true ∧ s1.rpc_messenger_.isSome = true := by
  induction calls with
  | nil => intro s s1 hi hm h; cases h; exact ⟨hi, hm⟩
  | cons c rest ih =>
    intro s s1 hi hm h
    obtain ⟨env, call⟩ := c
    simp only [run] at h
    cases hc : call.exec env s with
    | none => rw [hc] at h; cases h
    | some s0 =>
      rw [hc] at h
      have key : s0.initted_ = true ∧ s0.rpc_messenger_.isSome = true := by
        cases call with
        | Init => simp [Call.exec, TabletServer.Init, hi, Outcome.server?] at hc
        | Start =>
          simp [Call.exec, TabletServer.Start, TabletServer.StartRpcServer, hi, hm,
            Outcome.server?] at hc
        | GetBoundAddresses addresses =>
          simp only [Call.exec, TabletServer.GetBoundAddresses] at hc
          split at hc
          · cases hc
          · split at hc <;> cases hc
            exact ⟨hi, hm⟩
        | RegisterTablet tablet =>
          simp only [Call.exec, TabletServer.RegisterTablet] at hc
          split at hc <;> cases hc
          exact ⟨hi, hm⟩
        | LookupTablet tablet_id => cases hc; exact ⟨hi, hm⟩
      exact ih s0 s1 key.1 key.2 h

/-- A `StartRpcServer` that returns after a successful messenger build leaves the server
holding a messenger. -/
theorem StartRpcServer_built (env : Env) (s s1 : TabletServer) (st : Status)
    (h : s.StartRpcServer env = Outcome.returned st s1)
    (hbuilt : env.Build s.ToString s.options_.num_rpc_reactors = BuildResult.built) :
    s1.rpc_messenger_.isSome = true := by
  unfold TabletServer.StartRpcServer at h
  split at h
  · cases h
  split at h
  · cases h
  simp only [hbuilt, BuildResult.status, Status.ok, Bool.not_true, Bool.false_eq_true,
    if_false] at h
  split at h
  · cases h; rfl
  · split at h <;> cases h <;> rfl

/-- A `Start` that returns after a successful messenger build leaves the server initialized
and holding a messenger. -/
theorem Start_built (env : Env) (s s1 : TabletServer) (st : Status)
    (hstart : s.Start env = Outcome.returned st s1)
    (hbuilt : env.Build s.ToString s.options_.num_rpc_reactors = BuildResult.built) :
    s1.initted_ = true ∧ s1.rpc_messenger_.isSome = true := by
  have hframe := Start_frame env s s1 st hstart
  unfold TabletServer.Start at hstart
  split at hstart
  · cases hstart
  rename_i hi
  simp only [Bool.not_eq_true, Bool.not_eq_true', Bool.not_eq_false] at hi
  refine ⟨hframe.2.1.trans hi, ?_⟩
  split at hstart
  · cases hstart
  · rename_i st0 s0 heq
    split at hstart <;> cases hstart <;> exact StartRpcServer_built env s _ _ heq hbuilt

/-- The status `OK` is `ok()`. -/
theorem Status.ok_OK : Status.OK.ok = true := rfl

/-- A status is `ok()` exactly when it is `OK`. -/
theorem Status.ok_iff (st : Status) : st.ok = true ↔ st = Status.OK := by
  cases st <;> simp [Status.ok]

/-- When every `AddAcceptorPool` call of the loop returns OK, the loop runs to the end and
the messenger has received one call per address, in list order. -/
theorem AddAcceptorPools_done (env : Env) (n : Nat) (addrs : List Sockaddr) :
    ∀ m : Messenger,
      (∀ pre a post, addrs = pre ++ a :: post →
        env.AddAcceptorPool
          { m with acceptor_pool_calls := m.acceptor_pool_calls ++ pre.map (fun b => (b, n)) } a n =
            Status.OK) →
      AddAcceptorPools env n m addrs =
        AcceptorLoop.done
          { m with acceptor_pool_calls := m.acceptor_pool_calls ++ addrs.map (fun b => (b, n)) } := by
  induction addrs with
  | nil => intro m _; simp [AddAcceptorPools]
  | cons a rest ih =>
    intro m h
    have h0 := h [] a rest rfl
    simp only [List.map_nil, List.append_nil] at h0
    simp only [AddAcceptorPools, h0, Status.ok, if_true]
    rw [ih]
    · simp
    · intro pre b post hrest
      have h1 := h (a :: pre) b post (by rw [hrest]; rfl)
      simpa using h1

/-- When the `AddAcceptorPool` calls for the addresses in `pre` return OK and the call for the
next address `a` returns the error `st`, the loop leaves with `st` and the messenger has
received the calls for `pre` and for `a`, and none for the addresses after `a`. -/
theorem AddAcceptorPools_failed (env : Env) (n : Nat) (pre : List Sockaddr) :
    ∀ (m : Messenger) (a : Sockaddr) (post : List Sockaddr) (st : Status),
      (∀ pre1 b post1, pre = pre1 ++ b :: post1 →
        env.AddAcceptorPool
          { m with acceptor_pool_calls := m.acceptor_pool_calls ++ pre1.map (fun c => (c, n)) } b n =
            Status.OK) →
      env.AddAcceptorPool
          { m with acceptor_pool_calls := m.acceptor_pool_calls ++ pre.map (fun c => (c, n)) } a n = st →
      st ≠ Status.OK →
      AddAcceptorPools env n m (pre ++ a :: post) =
        AcceptorLoop.failed st
          { m with acceptor_pool_calls := m.acceptor_pool_calls ++ (pre ++ [a]).map (fun c => (c, n)) } := by
  induction pre with
  | nil =>
    intro m a post st _ ha hst
    simp only [List.map_nil, List.append_nil] at ha
    have hok : st.ok = false := by
      cases h : st.ok with
      | false => rfl
      | true => exact absurd ((Status.ok_iff st).1 h) hst
    simp [AddAcceptorPools, ha, hok]
  | cons b rest ih =>
    intro m a post st h ha hst
    have h0 := h [] b rest rfl
    simp only [List.map_nil, List.append_nil] at h0
    have hlist : (b :: rest) ++ a :: post = b :: (rest ++ a :: post) := rfl
    rw [hlist]
    simp only [AddAcceptorPools, h0, Status.ok, if_true]
    rw [ih _ a post st]
    · simp
    · intro pre1 c post1 hrest
      have h1 := h (b :: pre1) c post1 (by rw [hrest]; rfl)
      simpa using h1
    · simpa using ha
    · exact hst

/-- A returning `StartRpcServer` attaches a service pool only if it leaves a messenger. -/
theorem StartRpcServer_pool (env : Env) (s s1 : TabletServer) (st : Status)
    (h : s.StartRpcServer env = Outcome.returned st s1)
    (h0 : s.rpc_messenger_ = none → s.rpc_service_pool_ = none) :
    s1.rpc_messenger_ = none → s1.rpc_service_pool_ = none := by
  unfold TabletServer.StartRpcServer at h
  split at h
  · cases h
  split at h
  · cases h
  rename_i hm
  simp only [Bool.not_eq_true, Option.not_isSome, Option.isNone_iff_eq_none] at hm
  simp only at h
  split at h
  · cases h
    intro _
    exact h0 hm
  split at h
  · cases h; intro hn; cases hn
  · split at h <;> cases h <;> intro hn <;> cases hn

/-- On a server constructed and then used through calls that returned, a service pool is
attached only if a messenger is. -/
theorem run_pool (calls : List (Env × Call)) :
    ∀ (s s1 : TabletServer), (s.rpc_messenger_ = none → s.rpc_service_pool_ = none) →
      run s calls = some s1 → s1.rpc_messenger_ = none → s1.rpc_service_pool_ = none := by
  induction calls with
  | nil => intro s s1 h0 h; cases h; exact h0
  | cons c rest ih =>
    intro s s1 h0 h
    obtain ⟨env, call⟩ := c
    simp only [run] at h
    cases hc : call.exec env s with
    | none => rw [hc] at h; cases h
    | some s0 =>
      rw [hc] at h
      refine ih s0 s1 ?_ h
      cases call with
      | Init =>
        simp only [Call.exec, TabletServer.Init] at hc
        split at hc
        · cases hc
        · split at hc <;> cases hc <;> exact h0
      | Start =>
        simp only [Call.exec, TabletServer.Start] at hc
        split at hc
        · cases hc
        split at hc
        · cases hc
        · rename_i st0 s2 heq
          have hs : s2 = s0 := by split at hc <;> cases hc <;> rfl
          subst hs
          exact StartRpcServer_pool env s s2 st0 heq h0
      | GetBoundAddresses addresses =>
        simp only [Call.exec, TabletServer.GetBoundAddresses] at hc
        split at hc
        · cases hc
        · split at hc <;> cases hc
          exact h0
      | RegisterTablet tablet =>
        simp only [Call.exec, TabletServer.RegisterTablet] at hc
        split at hc <;> cases hc
        exact h0
      | LookupTablet tablet_id => cases hc; exact h0

/-- On a server holding a messenger, `GetBoundAddresses` returns, having appended to the
caller's vector the bind addresses reported by `GetAcceptorInfo`, in the same order. -/
theorem GetBoundAddresses_with_messenger (env : Env) (s : TabletServer) (m : Messenger)
    (addresses : List Sockaddr) (hinit : s.initted_ = true) (hm : s.rpc_messenger_ = some m) :
    s.GetBoundAddresses env addresses =
      Outcome.returned
        (addresses ++ (env.GetAcceptorInfo m).map (fun info => info.bind_address)) s := by
  simp [TabletServer.GetBoundAddresses, hinit, hm]

/-- C1: on a freshly constructed server, `RegisterTablet(t1)` returns and stores `t1`; a
following `RegisterTablet(t2)` stops the process at the `CHECK` of line 105, with `t1` still
the registered tablet. -/
theorem C1_RegisterTablet_second_call_aborts (opts : TabletServerOptions) (t1 t2 : Tablet) :
    (TabletServer.ctor opts).RegisterTablet (some t1) =
        Outcome.returned () { TabletServer.ctor opts with tablet_ := some t1 } ∧
      ({ TabletServer.ctor opts with tablet_ := some t1 } : TabletServer).RegisterTablet
          (some t2) =
        Outcome.aborted (Fault.check_failed 105)
          { TabletServer.ctor opts with tablet_ := some t1 } :=
  ⟨rfl, rfl⟩

/-- C2: once `RegisterTablet(t)` has returned on a server, and whatever calls other than
`RegisterTablet` have returned since, `LookupTablet(id)` returns true and yields exactly `t`,
for every requested id. -/
theorem C2_LookupTablet_yields_registered (s0 s1 s2 : TabletServer) (t : Option Tablet)
    (calls : List (Env × Call))
    (hreg : s0.RegisterTablet t = Outcome.returned () s1)
    (hcalls : ∀ c ∈ calls, c.2.isRegisterTablet = false)
    (hrun : run s1 calls = some s2) (tablet_id : String) :
    s2.LookupTablet tablet_id = Outcome.returned (true, t) s2 := by
  have h1 : s1.tablet_ = t := by
    unfold TabletServer.RegisterTablet at hreg
    split at hreg <;> cases hreg
    rfl
  have h2 := run_tablet calls s1 s2 hcalls hrun
  simp only [TabletServer.LookupTablet, h2, h1]

/-- C9: on a server constructed and then used through any calls that returned, none of which
registered a tablet, `LookupTablet(id)` returns true with a null tablet pointer for every id,
and leaves the server as it was. -/
theorem C9_LookupTablet_without_tablet (opts : TabletServerOptions)
    (calls : List (Env × Call)) (s : TabletServer)
    (hrun : run (TabletServer.ctor opts) calls = some s)
    (hcalls : ∀ c ∈ calls, c.2.registersTablet = false) (tablet_id : String) :
    s.LookupTablet tablet_id = Outcome.returned (true, none) s := by
  have h := run_no_tablet calls (TabletServer.ctor opts) s rfl hcalls hrun
  simp only [TabletServer.LookupTablet, h]

/-- C6: on a server constructed and then used through any calls that returned, none of which
was an `Init` returning OK, `Start` stops the process at the `CHECK(initted_)` of line 63;
the server then has no messenger (so no acceptor pool) and no service pool. -/
theorem C6_Start_before_Init_aborts (opts : TabletServerOptions)
    (calls : List (Env × Call)) (s : TabletServer)
    (hrun : run (TabletServer.ctor opts) calls = some s)
    (hcalls : noSuccessfulInit (TabletServer.ctor opts) calls = true) (env : Env) :
    s.Start env = Outcome.aborted (Fault.check_failed 63) s ∧
      s.rpc_messenger_ = none ∧ s.rpc_service_pool_ = none := by
  have h := run_noSuccessfulInit calls (TabletServer.ctor opts) s ⟨rfl, rfl, rfl⟩ hcalls hrun
  obtain ⟨hi, hm, hp⟩ := h
  refine ⟨?_, hm, hp⟩
  simp [TabletServer.Start, hi]

/-- C10: after a `Start` that built the messenger and returned, with OK or with a failure,
and after any further calls that returned, `Start` stops the process at the
`CHECK(!rpc_messenger_)` of line 70, with the server state (messenger, acceptor pools, service
pool) as it was before the call. -/
theorem C10_Start_again_aborts (env1 env2 : Env) (s s1 s2 : TabletServer) (st : Status)
    (calls : List (Env × Call))
    (hstart : s.Start env1 = Outcome.returned st s1)
    (hbuilt : env1.Build s.ToString s.options_.num_rpc_reactors = BuildResult.built)
    (hrun : run s1 calls = some s2) :
    s2.Start env2 = Outcome.aborted (Fault.check_failed 70) s2 := by
  obtain ⟨hi1, hm1⟩ := Start_built env1 s s1 st hstart hbuilt
  obtain ⟨hi, hm⟩ := run_started calls s1 s2 hi1 hm1 hrun
  simp [TabletServer.Start, TabletServer.StartRpcServer, hi, hm]

/-- C3: on a server that is not yet initialized, `Init` returns OK if and only if
`ParseAddressList` (called with the default port) returns OK; when it does, `Init` returns OK
whatever the ports are, a WARNING being logged for each address on a privileged port, the
initialized flag is set and the stored bind addresses are the ones `ParseAddressList`
produced. -/
theorem C3_Init_ok_iff_parse_ok (env : Env) (s : TabletServer) (hinit : s.initted_ = false) :
    ((∃ warned s1, s.Init env = Outcome.returned (Status.OK, warned) s1) ↔
        (env.ParseAddressList s.options_.rpc_bind_addresses env.kDefaultPort
          s.rpc_bind_addresses_).1 = Status.OK) ∧
      ((env.ParseAddressList s.options_.rpc_bind_addresses env.kDefaultPort
          s.rpc_bind_addresses_).1 = Status.OK →
        s.Init env =
          Outcome.returned
            (Status.OK,
              (env.ParseAddressList s.options_.rpc_bind_addresses env.kDefaultPort
                s.rpc_bind_addresses_).2.filter (fun addr => env.IsPrivilegedPort addr.port))
            { s with
              rpc_bind_addresses_ :=
                (env.ParseAddressList s.options_.rpc_bind_addresses env.kDefaultPort
                  s.rpc_bind_addresses_).2
              initted_ := true }) := by
  have hok : (env.ParseAddressList s.options_.rpc_bind_addresses env.kDefaultPort
        s.rpc_bind_addresses_).1 = Status.OK →
      s.Init env =
        Outcome.returned
          (Status.OK,
            (env.ParseAddressList s.options_.rpc_bind_addresses env.kDefaultPort
              s.rpc_bind_addresses_).2.filter (fun addr => env.IsPrivilegedPort addr.port))
          { s with
            rpc_bind_addresses_ :=
              (env.ParseAddressList s.options_.rpc_bind_addresses env.kDefaultPort
                s.rpc_bind_addresses_).2
            initted_ := true } := by
    intro h
    simp [TabletServer.Init, hinit, h, Status.ok]
  refine ⟨⟨?_, fun h => ⟨_, _, hok h⟩⟩, hok⟩
  rintro ⟨warned, s1, h⟩
  unfold TabletServer.Init at h
  simp only [hinit, Bool.false_eq_true, if_false] at h
  split at h
  · rename_i hp
    exact (Status.ok_iff _).1 hp
  · rename_i hp
    simp only [Outcome.returned.injEq, Prod.mk.injEq] at h
    rw [h.1.1] at hp
    exact absurd rfl hp

/-- C5: on an initialized server without a messenger, when the messenger build, every
`AddAcceptorPool` call and the service pool `Init` return OK, `Start` returns OK; the
messenger was built with the configured reactor count and has received exactly one
`AddAcceptorPool` call per stored bind address, in list order, each with the configured
acceptors-per-address count; the attached service pool is bound to that messenger and was
initialized with the configured service-thread count. -/
theorem C5_Start_success (env : Env) (s : TabletServer)
    (hinit : s.initted_ = true) (hnone : s.rpc_messenger_ = none)
    (hbuild : env.Build s.ToString s.options_.num_rpc_reactors = BuildResult.built)
    (hpools : ∀ pre a post, s.rpc_bind_addresses_ = pre ++ a :: post →
      env.AddAcceptorPool
        ⟨s.ToString, s.options_.num_rpc_reactors,
          pre.map (fun b => (b, s.options_.num_acceptors_per_address))⟩
        a s.options_.num_acceptors_per_address = Status.OK)
    (hservice : env.ServicePoolInit
        ⟨some ⟨s.ToString, s.options_.num_rpc_reactors,
          s.rpc_bind_addresses_.map (fun b => (b, s.options_.num_acceptors_per_address))⟩,
          none⟩
        s.options_.num_service_threads = Status.OK) :
    s.Start env =
      Outcome.returned Status.OK
        { s with
          rpc_messenger_ :=
            some ⟨s.ToString, s.options_.num_rpc_reactors,
              s.rpc_bind_addresses_.map (fun b => (b, s.options_.num_acceptors_per_address))⟩
          rpc_service_pool_ :=
            some ⟨some ⟨s.ToString, s.options_.num_rpc_reactors,
              s.rpc_bind_addresses_.map (fun b => (b, s.options_.num_acceptors_per_address))⟩,
              some s.options_.num_service_threads⟩ } := by
  have hloop := AddAcceptorPools_done env s.options_.num_acceptors_per_address
    s.rpc_bind_addresses_ ⟨s.ToString, s.options_.num_rpc_reactors, []⟩
    (by intro pre a post h; simpa using hpools pre a post h)
  simp only [List.nil_append] at hloop
  simp [TabletServer.Start, TabletServer.StartRpcServer, hinit, hnone, hbuild,
    BuildResult.status, Status.ok, hloop, hservice]

/-- C7: on an initialized server without a messenger (reached from construction through calls
that returned), no service pool is attached, and a failing `Start` returns the first failure
and leaves the service pool unattached: (1) when the messenger build fails, `Start` returns
that error having made no `AddAcceptorPool` call; (2) when the `AddAcceptorPool` calls for the
addresses `pre` return OK and the call for the next address `a` fails, `Start` returns that
error and the messenger has received the calls for `pre` and `a` only; (3) when all
`AddAcceptorPool` calls return OK and the service pool `Init` fails, `Start` returns that
error.  In each case only `rpc_messenger_` is written. -/
theorem C7_Start_returns_first_failure (opts : TabletServerOptions)
    (calls : List (Env × Call)) (s : TabletServer) (env : Env)
    (hrun : run (TabletServer.ctor opts) calls = some s)
    (hinit : s.initted_ = true) (hnone : s.rpc_messenger_ = none) :
    s.rpc_service_pool_ = none ∧
      (∀ code msg assigned,
        env.Build s.ToString s.options_.num_rpc_reactors =
          BuildResult.failed code msg assigned →
        s.Start env =
          Outcome.returned (Status.Error code msg)
            { s with
              rpc_messenger_ :=
                if assigned then some ⟨s.ToString, s.options_.num_rpc_reactors, []⟩
                else none }) ∧
      (∀ pre a post st,
        env.Build s.ToString s.options_.num_rpc_reactors = BuildResult.built →
        s.rpc_bind_addresses_ = pre ++ a :: post →
        (∀ pre1 b post1, pre = pre1 ++ b :: post1 →
          env.AddAcceptorPool
            ⟨s.ToString, s.options_.num_rpc_reactors,
              pre1.map (fun c => (c, s.options_.num_acceptors_per_address))⟩
            b s.options_.num_acceptors_per_address = Status.OK) →
        env.AddAcceptorPool
          ⟨s.ToString, s.options_.num_rpc_reactors,
            pre.map (fun c => (c, s.options_.num_acceptors_per_address))⟩
          a s.options_.num_acceptors_per_address = st →
        st ≠ Status.OK →
        s.Start env =
          Outcome.returned st
            { s with
              rpc_messenger_ :=
                some ⟨s.ToString, s.options_.num_rpc_reactors,
                  (pre ++ [a]).map (fun c => (c, s.options_.num_acceptors_per_address))⟩ }) ∧
      (∀ st,
        env.Build s.ToString s.options_.num_rpc_reactors = BuildResult.built →
        (∀ pre a post, s.rpc_bind_addresses_ = pre ++ a :: post →
          env.AddAcceptorPool
            ⟨s.ToString, s.options_.num_rpc_reactors,
              pre.map (fun c => (c, s.options_.num_acceptors_per_address))⟩
            a s.options_.num_acceptors_per_address = Status.OK) →
        env.ServicePoolInit
          ⟨some ⟨s.ToString, s.options_.num_rpc_reactors,
            s.rpc_bind_addresses_.map (fun c => (c, s.options_.num_acceptors_per_address))⟩,
            none⟩
          s.options_.num_service_threads = st →
        st ≠ Status.OK →
        s.Start env =
          Outcome.returned st
            { s with
              rpc_messenger_ :=
                some ⟨s.ToString, s.options_.num_rpc_reactors,
                  s.rpc_bind_addresses_.map
                    (fun c => (c, s.options_.num_acceptors_per_address))⟩ }) := by
  have hnot : ∀ st : Status, st ≠ Status.OK → st.ok = false := by
    intro st hst
    cases h : st.ok with
    | false => rfl
    | true => exact absurd ((Status.ok_iff st).1 h) hst
  refine ⟨run_pool calls (TabletServer.ctor opts) s (fun _ => rfl) hrun hnone, ?_, ?_, ?_⟩
  · intro code msg assigned hbuild
    simp [TabletServer.Start, TabletServer.StartRpcServer, hinit, hnone, hbuild,
      BuildResult.status, BuildResult.assigned, Status.ok]
  · intro pre a post st hbuild haddrs hpre ha hst
    have hloop := AddAcceptorPools_failed env s.options_.num_acceptors_per_address pre
      ⟨s.ToString, s.options_.num_rpc_reactors, []⟩ a post st
      (by intro pre1 b post1 h; simpa using hpre pre1 b post1 h) (by simpa using ha) hst
    simp only [List.nil_append] at hloop
    simp [TabletServer.Start, TabletServer.StartRpcServer, hinit, hnone, hbuild,
      BuildResult.status, Status.ok_OK, haddrs, hloop, hnot st hst]
  · intro st hbuild hpools hservice hst
    have hloop := AddAcceptorPools_done env s.options_.num_acceptors_per_address
      s.rpc_bind_addresses_ ⟨s.ToString, s.options_.num_rpc_reactors, []⟩
      (by intro pre a post h; simpa using hpools pre a post h)
    simp only [List.nil_append] at hloop
    simp [TabletServer.Start, TabletServer.StartRpcServer, hinit, hnone, hbuild,
      BuildResult.status, Status.ok_OK, hloop, hservice, hnot st hst]

/-- C8 (failing input): on a server on which `Init` has returned OK and `Start` has not been
called, `GetBoundAddresses` passes `CHECK(initted_)` and then calls `GetAcceptorInfo` through
the null `rpc_messenger_`. -/
theorem C8_GetBoundAddresses_before_Start :
    (TabletServer.ctor TabletServerOptions.ctor).Init sampleEnv =
        Outcome.returned (Status.OK, []) initializedServer ∧
      initializedServer.GetBoundAddresses sampleEnv [] =
        Outcome.aborted Fault.null_dereference initializedServer := by
  decide

/-! ## The claims evaluated on concrete servers -/

/-- C2 on a concrete server: a tablet is registered on a new server, `Init` and `Start`
return, and a lookup under another id yields the registered tablet. -/
theorem C2_LookupTablet_yields_registered_witness :
    (TabletServer.ctor TabletServerOptions.ctor).RegisterTablet (some tabletOne) =
        Outcome.returned () registeredServer ∧
      run registeredServer [(sampleEnv, Call.Init), (sampleEnv, Call.Start)] =
        some servingServer ∧
      servingServer.LookupTablet "tablet-2" =
        Outcome.returned (true, some tabletOne) servingServer :=
  ⟨by decide, by decide,
    C2_LookupTablet_yields_registered (TabletServer.ctor TabletServerOptions.ctor)
      registeredServer servingServer (some tabletOne)
      [(sampleEnv, Call.Init), (sampleEnv, Call.Start)]
      (by decide) (by decide) (by decide) "tablet-2"⟩

/-- C3 on a concrete server: with a bind-address list naming port 80, `Init` returns OK and
one WARNING is logged. -/
theorem C3_Init_ok_iff_parse_ok_witness :
    (TabletServer.ctor privilegedOptions).initted_ = false ∧
      (TabletServer.ctor privilegedOptions).Init sampleEnv =
        Outcome.returned (Status.OK, [⟨"0.0.0.0", 80⟩])
          { TabletServer.ctor privilegedOptions with
            rpc_bind_addresses_ := [⟨"0.0.0.0", 80⟩, defaultAddress]
            initted_ := true } :=
  ⟨rfl, (C3_Init_ok_iff_parse_ok sampleEnv (TabletServer.ctor privilegedOptions) rfl).2
    (by decide)⟩

/-- C5 on a concrete server: `Start` on the initialized default server. -/
theorem C5_Start_success_witness :
    initializedServer.initted_ = true ∧ initializedServer.rpc_messenger_ = none ∧
      initializedServer.Start sampleEnv = Outcome.returned Status.OK startedServer :=
  ⟨rfl, rfl,
    C5_Start_success sampleEnv initializedServer rfl rfl rfl
      (by
        intro pre a post h
        cases pre with
        | nil =>
          simp only [initializedServer, List.nil_append, List.cons.injEq] at h
          obtain ⟨ha, _⟩ := h
          subst ha
          decide
        | cons c t => simp [initializedServer] at h)
      rfl⟩

/-- C6 on a concrete server: after an `Init` that returned a parse error, `Start` aborts. -/
theorem C6_Start_before_Init_aborts_witness :
    run (TabletServer.ctor malformedOptions) [(sampleEnv, Call.Init)] =
        some (TabletServer.ctor malformedOptions) ∧
      noSuccessfulInit (TabletServer.ctor malformedOptions) [(sampleEnv, Call.Init)] = true ∧
      (TabletServer.ctor malformedOptions).Start sampleEnv =
        Outcome.aborted (Fault.check_failed 63) (TabletServer.ctor malformedOptions) :=
  ⟨by decide, by decide,
    (C6_Start_before_Init_aborts malformedOptions [(sampleEnv, Call.Init)] _ (by decide)
      (by decide) sampleEnv).1⟩

/-- C7 on a concrete server: the bind-address list names the same address twice, the second
`AddAcceptorPool` call fails; `Start` returns that error and no service pool is attached. -/
theorem C7_Start_returns_first_failure_witness :
    run (TabletServer.ctor duplicateOptions) [(sampleEnv, Call.Init)] = some duplicateServer ∧
      duplicateServer.initted_ = true ∧ duplicateServer.rpc_messenger_ = none ∧
      duplicateServer.Start sampleEnv =
        Outcome.returned (Status.Error 8 "address in use") halfStartedServer ∧
      halfStartedServer.rpc_service_pool_ = none :=
  ⟨by decide, rfl, rfl,
    (C7_Start_returns_first_failure duplicateOptions [(sampleEnv, Call.Init)] duplicateServer
      sampleEnv (by decide) rfl rfl).2.2.1 [defaultAddress] defaultAddress []
      (Status.Error 8 "address in use") rfl rfl
      (by
        intro pre1 b post1 h
        cases pre1 with
        | nil =>
          simp only [List.nil_append, List.cons.injEq] at h
          obtain ⟨hb, _⟩ := h
          subst hb
          decide
        | cons c t => simp at h)
      (by decide) (by decide),
    rfl⟩

/-- C9 on a concrete server: the default server is initialized and started, a null pointer is
passed to `RegisterTablet`, and a lookup yields a null pointer. -/
theorem C9_LookupTablet_without_tablet_witness :
    run (TabletServer.ctor TabletServerOptions.ctor)
        [(sampleEnv, Call.Init), (sampleEnv, Call.Start), (sampleEnv, Call.RegisterTablet none)] =
        some startedServer ∧
      startedServer.LookupTablet "tablet-1" = Outcome.returned (true, none) startedServer :=
  ⟨by decide,
    C9_LookupTablet_without_tablet TabletServerOptions.ctor
      [(sampleEnv, Call.Init), (sampleEnv, Call.Start), (sampleEnv, Call.RegisterTablet none)]
      startedServer (by decide) (by decide) "tablet-1"⟩

/-- C10 on a concrete server: a `Start` that returned a bind failure is followed by a call of
`GetBoundAddresses` and a second `Start`, which aborts. -/
theorem C10_Start_again_aborts_witness :
    duplicateServer.Start sampleEnv =
        Outcome.returned (Status.Error 8 "address in use") halfStartedServer ∧
      sampleEnv.Build duplicateServer.ToString duplicateServer.options_.num_rpc_reactors =
        BuildResult.built ∧
      run halfStartedServer [(sampleEnv, Call.GetBoundAddresses [])] = some halfStartedServer ∧
      halfStartedServer.Start noThreadsEnv =
        Outcome.aborted (Fault.check_failed 70) halfStartedServer :=
  ⟨by decide, rfl, by decide,
    C10_Start_again_aborts sampleEnv noThreadsEnv duplicateServer halfStartedServer
      halfStartedServer (Status.Error 8 "address in use")
      [(sampleEnv, Call.GetBoundAddresses [])] (by decide) rfl (by decide)⟩

end kudu
